import Mathlib

/-!
Verification of the searoute route-composition code (Go) against its
natural-language specification, by a shallow embedding of the relevant
functions (`splitter`, `generateOutput`, `calculatePassageInfo`,
`getPortCoordinates` and the two request handlers that call them).

Modelling conventions:
* `float64` coordinates and distances are modelled as rationals.
* The two external primitives the code calls — `geo.GreatCircleDistance`
  (behind `CalcDistance`) and `gdj.FeatureCollection.FindPath` — are treated
  as function parameters, exactly as the specification treats them
  ("external primitives with a defined contract").
* File-system effects (`os.Stat`, `os.ReadFile`) and `json.Unmarshal` are
  modelled by an explicit environment value describing what each read and
  parse yields; every branch of the Go code on those results is mirrored.
-/

namespace Searoute

/-- A GeoJSON position as used by the code (`gdj.Position`): longitude
first, then latitude, modelled with rational coordinates. -/
structure Position where
  lon : ℚ
  lat : ℚ
deriving DecidableEq, Repr

instance : Inhabited Position := ⟨⟨0, 0⟩⟩

/-- `gdj.Geometry`: a geometry type tag plus a flat coordinate list
(`gdj.Path`), as used for LineString features. -/
structure Geometry where
  type : String
  coordinates : List Position
deriving DecidableEq, Repr

/-- `gdj.Feature`: `Type`, `Geometry` and a `Properties` map. The property
map is carried as an opaque key/value list; the code under verification
never inspects it. -/
structure GFeature where
  type : String
  geometry : Geometry
  properties : List (String × String)
deriving DecidableEq, Repr

/-- `gdj.FeatureCollection`. -/
structure FeatureCollection where
  type : String
  features : List GFeature
deriving DecidableEq, Repr

/-- The consecutive-pair walk inside `splitter` (pasgen.go): the loop
`for i := 0; i < lengthOfCoords-1; i++` emits the two-point list
`[coord_i, coord_(i+1)]` for each `i`. -/
def splitPairs : List Position → List (List Position)
  | c1 :: c2 :: rest => [c1, c2] :: splitPairs (c2 :: rest)
  | _ => []

/-- `splitter` (pasgen.go): rebuilds the collection with every feature's
coordinate list decomposed into two-point `LineString` features, one per
consecutive coordinate pair (new features carry no properties, matching
the Go zero value). -/
def splitter (fc : FeatureCollection) : FeatureCollection :=
  { type := "FeatureCollection"
    features := fc.features.flatMap fun feature =>
      (splitPairs feature.geometry.coordinates).map fun cs =>
        { type := "Feature"
          geometry := { type := "LineString", coordinates := cs }
          properties := [] } }

/-- The `Properties` block of the output `Feature` struct (pasgen.go). -/
structure OutProperties where
  oCoords : Position
  dCoords : Position
  oToWpDist : ℚ
  wpToDDist : ℚ
  wpDist : ℚ
  totalDist : ℚ
  routeName : String
deriving DecidableEq, Repr

/-- The output `Feature` struct (pasgen.go). -/
structure OutFeature where
  type : String
  geometry : Geometry
  properties : OutProperties
  id : String
deriving DecidableEq, Repr

/-- The `Output` struct (pasgen.go). -/
structure Output where
  type : String
  name : String
  features : List OutFeature
deriving DecidableEq, Repr

/-- `generateOutput` (pasgen.go): wraps the path and the distance figures
in a single `LineString` feature, with the fixed collection name. The
`writeOutput` call is a file write that does not affect the returned
value and is omitted. -/
def generateOutput (path : List Position) (oCoords dCoords : Position)
    (totalDistance oToWpDist wpToDDist wp2WpDist : ℚ) (routeName : String) :
    Output :=
  { type := "FeatureCollection"
    name := "Short Sea Route"
    features := [
      { type := "Feature"
        geometry := { type := "LineString", coordinates := path }
        properties :=
          { oCoords := oCoords
            dCoords := dCoords
            oToWpDist := oToWpDist
            wpToDDist := wpToDDist
            wpDist := wp2WpDist
            totalDist := totalDistance
            routeName := routeName }
        id := "1" } ] }

/-- The external great-circle distance primitive: `CalcDistance` (main.go)
delegates to `geo.GreatCircleDistance`, whose internals the specification
places out of scope. Modelled as a function parameter. -/
abbrev DistanceFn := Position → Position → ℚ

/-- The external shortest-path search primitive
(`gdj.FeatureCollection.FindPath`): from a graph, origin, destination and
snapping tolerance to either a path with its total edge distance in
meters, or an error. Per its documented contract the returned points are
ordered closest-to-destination first. -/
abbrev FindPathFn :=
  FeatureCollection → Position → Position → ℚ → Except Unit (List Position × ℚ)

/-- What reading and unmarshalling one dataset file yields in
`calculatePassageInfo` (main.go): `os.ReadFile` may fail (`unreadable`),
`json.Unmarshal` may fail (`unparsable`) or leave the pointer nil
(`parsedNil`), or a feature collection is obtained. -/
inductive FileContent where
  | unreadable
  | unparsable
  | parsedNil
  | parsed (fc : FeatureCollection)
deriving DecidableEq, Repr

/-- The file-system state `calculatePassageInfo` observes: whether
`os.Stat("dataset/splitCoords.geojson")` reports not-exists, and what
reading each of the two dataset files would yield. -/
structure Env where
  splitStatNotExist : Bool
  split : FileContent
  marnet : FileContent
deriving DecidableEq, Repr

/-- The error outcomes of `calculatePassageInfo` (main.go). Note that no
invalid-coordinate error exists: the function performs no coordinate
validation. `indexOutOfRange` stands for the Go index panic at
`path[0]` / `path[len(path)-1]` on an empty path. -/
inductive PassageError where
  | readMarnetError
  | readSplitError
  | parseError
  | nilData
  | nilDataSplit
  | pathNotFound
  | indexOutOfRange
deriving DecidableEq, Repr

/-- Work counters for one `calculatePassageInfo` call: dataset file reads
(`os.ReadFile`, lines 331/339 of main.go), JSON parses (`json.Unmarshal`,
line 348) and decompositions (`splitter`, line 360). -/
structure CallLog where
  reads : Nat
  parses : Nat
  splits : Nat
deriving DecidableEq, Repr

/-- Lines 326-367 of main.go: pick the dataset file by the stat result,
read it, unmarshal it, and split it exactly when the pre-split file was
not used; paired with the work performed. Every early `return` of the Go
code is an `error` branch here. The guard at line 371
(`len(newFc.Features) == 0 && (!splitAvailable && fc == nil)`) is
unreachable — a nil `fc` already returned in both branches — and has no
counterpart. -/
def buildGraphL (env : Env) : Except PassageError FeatureCollection × CallLog :=
  if env.splitStatNotExist then
    match env.marnet with
    | .unreadable => (.error .readMarnetError, ⟨1, 0, 0⟩)
    | .unparsable => (.error .parseError, ⟨1, 1, 0⟩)
    | .parsedNil => (.error .nilData, ⟨1, 1, 0⟩)
    | .parsed fc => (.ok (splitter fc), ⟨1, 1, 1⟩)
  else
    match env.split with
    | .unreadable => (.error .readSplitError, ⟨1, 0, 0⟩)
    | .unparsable => (.error .parseError, ⟨1, 1, 0⟩)
    | .parsedNil => (.error .nilDataSplit, ⟨1, 1, 0⟩)
    | .parsed fc => (.ok fc, ⟨1, 1, 0⟩)

/-- The graph `calculatePassageInfo` ends up searching, without the log. -/
def buildGraph (env : Env) : Except PassageError FeatureCollection :=
  (buildGraphL env).1

/-- Lines 379-421 of main.go: call `FindPath` with tolerance `0.00001`; on
error, return the error (no fallback of any kind). Otherwise take
`lastWp := path[0]` and `firstWp := path[len(path)-1]` (an index panic on
an empty path), convert the edge distance to kilometers once, add the two
access legs computed with `CalcDistance`, and hand everything — with the
path unchanged — to `generateOutput`. -/
def routeFromGraph (dist : DistanceFn) (findPath : FindPathFn)
    (newFc : FeatureCollection) (originCoords destinationCoords : Position)
    (routeName : String) : Except PassageError Output :=
  match findPath newFc originCoords destinationCoords (1 / 100000) with
  | .error _ => .error .pathNotFound
  | .ok (path, distance) =>
    match path with
    | [] => .error .indexOutOfRange
    | p0 :: rest =>
      let distanceInKm := distance / 1000
      let lastWp := p0
      let firstWp := (p0 :: rest).getLastD default
      let distToFirstWp := dist originCoords firstWp
      let distFromLastWp := dist destinationCoords lastWp
      let totalDistance := distToFirstWp + distanceInKm + distFromLastWp
      .ok (generateOutput (p0 :: rest) originCoords destinationCoords
        totalDistance distToFirstWp distFromLastWp distanceInKm routeName)

/-- `calculatePassageInfo` (main.go, lines 321-422), paired with the work
it performs on the dataset. -/
def calculatePassageInfoL (dist : DistanceFn) (findPath : FindPathFn)
    (env : Env) (originCoords destinationCoords : Position)
    (routeName : String) : Except PassageError Output × CallLog :=
  match buildGraphL env with
  | (.error e, l) => (.error e, l)
  | (.ok newFc, l) =>
    (routeFromGraph dist findPath newFc originCoords destinationCoords routeName, l)

/-- `calculatePassageInfo` (main.go): the value returned to the caller. -/
def calculatePassageInfo (dist : DistanceFn) (findPath : FindPathFn)
    (env : Env) (originCoords destinationCoords : Position)
    (routeName : String) : Except PassageError Output :=
  (calculatePassageInfoL dist findPath env originCoords destinationCoords routeName).1

/-- The dataset work accumulated by a sequence of `n` identical
`calculatePassageInfo` calls in one process. The Go function keeps no
package-level graph and only reads the dataset files, so every call runs
against the same unchanged environment. -/
def runCalls (dist : DistanceFn) (findPath : FindPathFn) (env : Env)
    (originCoords destinationCoords : Position) (routeName : String) :
    Nat → CallLog
  | 0 => ⟨0, 0, 0⟩
  | n + 1 =>
    let prev := runCalls dist findPath env originCoords destinationCoords routeName n
    let cur := (calculatePassageInfoL dist findPath env originCoords
      destinationCoords routeName).2
    ⟨prev.reads + cur.reads, prev.parses + cur.parses, prev.splits + cur.splits⟩

/-- One entry of the loaded port list (the `Port` struct). -/
structure Port where
  port : String
  country : String
  longitude : ℚ
  latitude : ℚ
deriving DecidableEq, Repr

/-- `getPortCoordinates` (main.go, lines 446-453): walk the port list, the
first case-sensitive exact name match wins, and `(0, 0)` is returned when
no entry matches. -/
def getPortCoordinates : List Port → String → ℚ × ℚ
  | [], _ => (0, 0)
  | p :: rest, portName =>
    if p.port = portName then (p.longitude, p.latitude)
    else getPortCoordinates rest portName

/-- The body of the `/waypoints` handler (main.go, lines 243-269): look
both port names up and call `calculatePassageInfo` with whatever
coordinates come back — this path has no not-found check at all. -/
def waypointsHandler (portData : List Port) (dist : DistanceFn)
    (findPath : FindPathFn) (env : Env) (fromPort toPort : String) :
    Except PassageError Output :=
  let o := getPortCoordinates portData fromPort
  let d := getPortCoordinates portData toPort
  calculatePassageInfo dist findPath env ⟨o.1, o.2⟩ ⟨d.1, d.2⟩
    (fromPort ++ " -> " ++ toPort)

deriving instance DecidableEq for Except

/-- Outcome of the port-name branch of `seaRouteToolHandler` (main.go). -/
inductive McpOutcome where
  | originNotFound
  | destinationNotFound
  | calculated (r : Except PassageError Output)
deriving DecidableEq, Repr

/-- The port-name branch of `seaRouteToolHandler` (main.go, lines 75-88):
a `(0, 0)` lookup result is reported as "port not found" and no route is
attempted. -/
def seaRouteByNames (portData : List Port) (dist : DistanceFn)
    (findPath : FindPathFn) (env : Env) (originPortName destPortName : String) :
    McpOutcome :=
  let o := getPortCoordinates portData originPortName
  let d := getPortCoordinates portData destPortName
  if o.1 = 0 ∧ o.2 = 0 then .originNotFound
  else if d.1 = 0 ∧ d.2 = 0 then .destinationNotFound
  else .calculated (calculatePassageInfo dist findPath env ⟨o.1, o.2⟩ ⟨d.1, d.2⟩
    (originPortName ++ " to " ++ destPortName))

/-- Spec-side: a Position inside the documented [-180,180]×[-90,90] range
(rationals are always finite, so finiteness is automatic). -/
def validPosition (p : Position) : Prop :=
  -180 ≤ p.lon ∧ p.lon ≤ 180 ∧ -90 ≤ p.lat ∧ p.lat ≤ 90

instance (p : Position) : Decidable (validPosition p) := by
  unfold validPosition; infer_instance

/-- Spec-side: the consecutive coordinate pairs of a line, each as the
two-point edge `[point_i, point_(i+1)]`, in order. -/
def consecutivePairs (l : List Position) : List (List Position) :=
  (l.zip l.tail).map fun pr => [pr.1, pr.2]

/-- Discriminator for `Except` results. -/
def exceptIsOk {ε α : Type} : Except ε α → Bool
  | .ok _ => true
  | .error _ => false

/-- The search primitive's documented ordering contract: a nonempty path
returned closest-to-destination first — its head is the point nearest the
destination and its last point is the point nearest the origin. -/
def primitiveOrdered (dist : DistanceFn) (origin destination : Position)
    (path : List Position) : Prop :=
  path ≠ [] ∧
  (∀ q ∈ path, dist path.headI destination ≤ dist q destination) ∧
  (∀ q ∈ path, dist (path.getLastD default) origin ≤ dist q origin)

instance (dist : DistanceFn) (o d : Position) (path : List Position) :
    Decidable (primitiveOrdered dist o d path) := by
  unfold primitiveOrdered; infer_instance

/-- Rational magnitude, written so that kernel reduction evaluates it. -/
def qabs (x : ℚ) : ℚ := if x < 0 then -x else x

/-- A concrete instance of the external distance primitive used for closed
instantiations: taxicab degrees. On the sample points used below (pairs on
a single parallel) it orders point pairs exactly as the great-circle
distance does. -/
def exDist : DistanceFn := fun p q => qabs (p.lon - q.lon) + qabs (p.lat - q.lat)

/-- A small raw dataset: one three-point navigable line. -/
def exRawFc : FeatureCollection :=
  { type := "FeatureCollection"
    features := [
      { type := "Feature"
        geometry :=
          { type := "LineString"
            coordinates := [⟨0, 0⟩, ⟨5, 0⟩, ⟨9, 0⟩] }
        properties := [] } ] }

/-- File-system state with no pre-split cache file and a readable,
parseable raw dataset. -/
def exEnv : Env :=
  { splitStatNotExist := true, split := .unreadable, marnet := .parsed exRawFc }

/-- File-system state where the pre-split cache file exists but reading it
fails, while the raw dataset would be perfectly readable. -/
def exEnvUnreadableCache : Env :=
  { splitStatNotExist := false, split := .unreadable, marnet := .parsed exRawFc }

/-- A search primitive instance returning the fixed path
`[(1,0), (9,0)]` — closest-to-destination first for origin `(10,0)` and
destination `(0,0)` — with a 5000 m edge distance. -/
def exFp : FindPathFn := fun _ _ _ _ => .ok ([⟨1, 0⟩, ⟨9, 0⟩], 5000)

/-- A search primitive instance returning the fixed path
`[(2,0), (8,0)]` with a 7000 m edge distance. -/
def exFp2 : FindPathFn := fun _ _ _ _ => .ok ([⟨2, 0⟩, ⟨8, 0⟩], 7000)

/-- A search primitive instance that always fails (no vertex within
tolerance or no connected path). -/
def exFpFail : FindPathFn := fun _ _ _ _ => .error ()

/-- A search primitive instance for the dateline-straddling pair, with the
destination-nearest point first. -/
def exFpDateline : FindPathFn :=
  fun _ _ _ _ => .ok ([⟨-179.5, 10⟩, ⟨179.5, 10⟩], 111000)

/-- A second two-point collection used by witnesses. -/
def exTwoPointFc : FeatureCollection :=
  { type := "FeatureCollection"
    features := [
      { type := "Feature"
        geometry := { type := "LineString", coordinates := [⟨2, 0⟩, ⟨8, 0⟩] }
        properties := [] } ] }

/-- Sample port list: a real port, and a (fictitious) genuine port located
at exactly longitude 0, latitude 0. -/
def exPorts : List Port :=
  [ ⟨"Rotterdam", "Netherlands", 4.47917, 51.925⟩
  , ⟨"Null Island", "Atlantis", 0, 0⟩ ]

/- ------------------------------------------------------------------ -/
/- Helper lemmas (shared).                                            -/
/- ------------------------------------------------------------------ -/

theorem qabs_eq_abs (x : ℚ) : qabs x = |x| := by
  unfold qabs
  split
  · exact (abs_of_neg (by assumption)).symm
  · exact (abs_of_nonneg (le_of_not_lt (by assumption))).symm

theorem splitPairs_eq_consecutivePairs (l : List Position) :
    splitPairs l = consecutivePairs l := by
  induction l with
  | nil => rfl
  | cons a t ih =>
    cases t with
    | nil => rfl
    | cons b t' =>
      show [a, b] :: splitPairs (b :: t') = consecutivePairs (a :: b :: t')
      rw [ih]
      simp [consecutivePairs]

theorem splitPairs_nil_of_short (l : List Position) (h : l.length < 2) :
    splitPairs l = [] := by
  match l, h with
  | [], _ => rfl
  | [a], _ => rfl

theorem splitPairs_length (l : List Position) :
    (splitPairs l).length = l.length - 1 := by
  induction l with
  | nil => rfl
  | cons a t ih =>
    cases t with
    | nil => rfl
    | cons b t' =>
      simp only [splitPairs, List.length_cons] at *
      omega

theorem splitPairs_getD (l : List Position) (i : Nat) (h : i + 1 < l.length) :
    (splitPairs l).getD i [] = [l.getD i default, l.getD (i + 1) default] := by
  induction l generalizing i with
  | nil => simp at h
  | cons a t ih =>
    cases t with
    | nil => simp at h
    | cons b t' =>
      cases i with
      | zero => rfl
      | succ j =>
        have hj : j + 1 < (b :: t').length := by
          simpa [List.length_cons] using Nat.lt_of_succ_lt_succ h
        simpa [splitPairs, List.getD_cons_succ] using ih j hj

theorem splitter_features_map (fc : FeatureCollection) :
    (splitter fc).features.map (fun f => f.geometry.coordinates) =
      fc.features.flatMap (fun f => consecutivePairs f.geometry.coordinates) := by
  simp only [splitter]
  induction fc.features with
  | nil => rfl
  | cons f fs ih =>
    simp only [List.flatMap_cons, List.map_append, ih]
    congr 1
    rw [List.map_map, splitPairs_eq_consecutivePairs]
    exact List.map_id _

theorem consecutivePairs_of_length_two (l : List Position) (h : l.length = 2) :
    consecutivePairs l = [l] := by
  match l, h with
  | [a, b], _ => rfl

theorem flatMap_consecutivePairs_of_two (fs : List GFeature)
    (h : ∀ f ∈ fs, f.geometry.coordinates.length = 2) :
    fs.flatMap (fun f => consecutivePairs f.geometry.coordinates) =
      fs.map (fun f => f.geometry.coordinates) := by
  induction fs with
  | nil => rfl
  | cons f fs ih =>
    rw [List.flatMap_cons, List.map_cons,
      ih (fun g hg => h g (List.mem_cons_of_mem f hg)),
      consecutivePairs_of_length_two _ (h f (List.mem_cons_self f fs)),
      List.singleton_append]

theorem getPortCoordinates_eq_zero_of_not_found (portData : List Port)
    (name : String) (h : ∀ p ∈ portData, p.port ≠ name) :
    getPortCoordinates portData name = (0, 0) := by
  induction portData with
  | nil => rfl
  | cons p rest ih =>
    have hp : p.port ≠ name := h p (List.mem_cons_self p rest)
    simp only [getPortCoordinates, if_neg hp]
    exact ih fun q hq => h q (List.mem_cons_of_mem p hq)

theorem exPath_ordered :
    primitiveOrdered exDist ⟨10, 0⟩ ⟨0, 0⟩ [⟨1, 0⟩, ⟨9, 0⟩] := by
  refine ⟨by simp, ?_, ?_⟩ <;>
    · intro q hq
      simp only [List.mem_cons, List.mem_singleton] at hq
      rcases hq with rfl | rfl | h
      · norm_num [exDist, qabs]
      · norm_num [exDist, qabs]
      · simp at h

theorem calculatePassageInfo_route (dist : DistanceFn) (findPath : FindPathFn)
    (env : Env) (o d : Position) (name : String) (fc : FeatureCollection)
    (hg : buildGraph env = .ok fc) :
    calculatePassageInfo dist findPath env o d name =
      routeFromGraph dist findPath fc o d name := by
  unfold calculatePassageInfo calculatePassageInfoL
  unfold buildGraph at hg
  rcases hbl : buildGraphL env with ⟨g, l⟩
  rw [hbl] at hg
  simp only at hg
  rw [hg]

/- ------------------------------------------------------------------ -/
/- Claim theorems.                                                    -/
/- ------------------------------------------------------------------ -/

/-- Claim C7 (confirmed): the Graph Preparer `splitter` emits, for each
input line, exactly one two-point Edge per consecutive Position pair —
globally, the emitted coordinate lists are the concatenation, over the
input lines in order, of their consecutive pairs `[point_i, point_(i+1)]`;
a line of `n ≥ 2` points yields `n - 1` Edges, the `i`-th being
`[point_i, point_(i+1)]`, and a line with fewer than 2 points yields no
Edges. -/
theorem splitter_edges_per_consecutive_pair :
    (∀ fc : FeatureCollection,
      (splitter fc).features.map (fun f => f.geometry.coordinates) =
        fc.features.flatMap (fun f => consecutivePairs f.geometry.coordinates)) ∧
    (∀ l : List Position, 2 ≤ l.length → (splitPairs l).length = l.length - 1) ∧
    (∀ l : List Position, l.length < 2 → splitPairs l = []) ∧
    (∀ (l : List Position) (i : Nat), i + 1 < l.length →
      (splitPairs l).getD i [] = [l.getD i default, l.getD (i + 1) default]) := by
  refine ⟨splitter_features_map, fun l _ => splitPairs_length l,
    splitPairs_nil_of_short, splitPairs_getD⟩

/-- Witness for C7 at concrete inputs: the sample dataset's three-point
line yields its two consecutive pairs; a three-point line yields 2 edges,
the edge at index 1 is the second pair, and a one-point line yields no
edges. -/
theorem splitter_edges_per_consecutive_pair_witness :
    (splitter exRawFc).features.map (fun f => f.geometry.coordinates) =
      exRawFc.features.flatMap (fun f => consecutivePairs f.geometry.coordinates) ∧
    (splitPairs [⟨0, 0⟩, ⟨5, 0⟩, ⟨9, 0⟩]).length =
      ([⟨0, 0⟩, ⟨5, 0⟩, ⟨9, 0⟩] : List Position).length - 1 ∧
    splitPairs [⟨3, 3⟩] = [] ∧
    (splitPairs [⟨0, 0⟩, ⟨5, 0⟩, ⟨9, 0⟩]).getD 1 [] =
      [([⟨0, 0⟩, ⟨5, 0⟩, ⟨9, 0⟩] : List Position).getD 1 default,
       ([⟨0, 0⟩, ⟨5, 0⟩, ⟨9, 0⟩] : List Position).getD 2 default] :=
  ⟨splitter_edges_per_consecutive_pair.1 exRawFc,
   splitter_edges_per_consecutive_pair.2.1 [⟨0, 0⟩, ⟨5, 0⟩, ⟨9, 0⟩] (by decide),
   splitter_edges_per_consecutive_pair.2.2.1 [⟨3, 3⟩] (by decide),
   splitter_edges_per_consecutive_pair.2.2.2 [⟨0, 0⟩, ⟨5, 0⟩, ⟨9, 0⟩] 1 (by decide)⟩

/-- Claim C8 (confirmed): on a collection whose lines all already have
exactly 2 points, `splitter` reproduces the input's lines exactly — each
two-point line maps to exactly one identical Edge, so the emitted Edge
list (and hence Edge set) is identical to the input's list of lines. -/
theorem splitter_idempotent_on_two_point_lines (fc : FeatureCollection)
    (h : ∀ f ∈ fc.features, f.geometry.coordinates.length = 2) :
    (splitter fc).features.map (fun f => f.geometry.coordinates) =
      fc.features.map (fun f => f.geometry.coordinates) := by
  rw [splitter_features_map]
  exact flatMap_consecutivePairs_of_two fc.features h

/-- Witness for C8: applying `splitter` to the already-decomposed sample
dataset (itself produced by `splitter`) leaves the Edge list unchanged. -/
theorem splitter_idempotent_on_two_point_lines_witness :
    (splitter (splitter exRawFc)).features.map (fun f => f.geometry.coordinates) =
      (splitter exRawFc).features.map (fun f => f.geometry.coordinates) :=
  splitter_idempotent_on_two_point_lines (splitter exRawFc) (by decide)

/-- Claim C5 (confirmed): for every successful route computation, the
reported total distance equals the great-circle access-leg distance from
the raw origin to the path point the search primitive placed nearest the
origin (its last point, identified by the ordering contract `hord`), plus
the primitive's edge distance converted from meters to kilometers exactly
once (divided by 1000), plus the great-circle access-leg distance from the
path point nearest the destination (the primitive's first point) to the
raw destination. `hsym` is symmetry of the external great-circle distance
primitive. -/
theorem totalDist_is_legs_plus_converted_edge (dist : DistanceFn)
    (findPath : FindPathFn) (env : Env) (o d : Position) (name : String)
    (fc : FeatureCollection) (path : List Position) (m : ℚ)
    (hg : buildGraph env = .ok fc)
    (hfp : findPath fc o d (1 / 100000) = .ok (path, m))
    (hord : primitiveOrdered dist o d path)
    (hsym : ∀ p q, dist p q = dist q p) :
    (calculatePassageInfo dist findPath env o d name).map
        (fun out => out.features.map (fun f => f.properties.totalDist)) =
      .ok [dist o (path.getLastD default) + m / 1000 + dist path.headI d] := by
  rw [calculatePassageInfo_route dist findPath env o d name fc hg]
  obtain ⟨hne, -, -⟩ := hord
  cases path with
  | nil => exact absurd rfl hne
  | cons p0 rest =>
    simp only [routeFromGraph, hfp]
    simp [generateOutput, Except.map, List.headI, hsym d p0]

/-- Witness for C5 at concrete inputs: origin `(10,0)`, destination
`(0,0)`, the sample graph, and the primitive path `[(1,0),(9,0)]` with a
5000 m edge distance give total `9 + 5 + 1` kilometers. -/
theorem totalDist_is_legs_plus_converted_edge_witness :
    (calculatePassageInfo exDist exFp exEnv ⟨10, 0⟩ ⟨0, 0⟩ "sample").map
        (fun out => out.features.map (fun f => f.properties.totalDist)) =
      .ok [exDist ⟨10, 0⟩ (([⟨1, 0⟩, ⟨9, 0⟩] : List Position).getLastD default) +
        5000 / 1000 + exDist (([⟨1, 0⟩, ⟨9, 0⟩] : List Position).headI) ⟨0, 0⟩] :=
  totalDist_is_legs_plus_converted_edge exDist exFp exEnv ⟨10, 0⟩ ⟨0, 0⟩ "sample"
    (splitter exRawFc) [⟨1, 0⟩, ⟨9, 0⟩] 5000 rfl rfl exPath_ordered
    (fun p q => by simp [exDist, qabs_eq_abs, abs_sub_comm])

/-- Claim C10 (confirmed): a port name with no case-sensitive exact match
yields `(0, 0)` from `getPortCoordinates`; the `/waypoints` handler then
proceeds to compute a route using longitude 0, latitude 0 for that
endpoint instead of reporting an error; and the MCP tool handler maps any
`(0, 0)` lookup result — including that of a genuine port located at
exactly longitude 0, latitude 0 — to "origin port not found". -/
theorem port_lookup_zero_flow :
    (∀ (portData : List Port) (name : String),
      (∀ p ∈ portData, p.port ≠ name) →
      getPortCoordinates portData name = (0, 0)) ∧
    (∀ (portData : List Port) (dist : DistanceFn) (findPath : FindPathFn)
        (env : Env) (fromPort toPort : String),
      (∀ p ∈ portData, p.port ≠ fromPort) →
      waypointsHandler portData dist findPath env fromPort toPort =
        calculatePassageInfo dist findPath env ⟨0, 0⟩
          ⟨(getPortCoordinates portData toPort).1,
           (getPortCoordinates portData toPort).2⟩
          (fromPort ++ " -> " ++ toPort)) ∧
    (∀ (portData : List Port) (dist : DistanceFn) (findPath : FindPathFn)
        (env : Env) (originPortName destPortName : String),
      getPortCoordinates portData originPortName = (0, 0) →
      seaRouteByNames portData dist findPath env originPortName destPortName =
        .originNotFound) := by
  refine ⟨getPortCoordinates_eq_zero_of_not_found, ?_, ?_⟩
  · intro portData dist findPath env fromPort toPort h
    unfold waypointsHandler
    rw [getPortCoordinates_eq_zero_of_not_found portData fromPort h]
  · intro portData dist findPath env originPortName destPortName h
    simp [seaRouteByNames, h]

/-- Witness for C10: the lowercase query "rotterdam" misses the stored
"Rotterdam" entry and yields `(0, 0)`; the `/waypoints` handler still
computes a route from `(0, 0)`; and the genuine `(0, 0)`-located port
"Null Island" is reported as not found by the MCP handler. -/
theorem port_lookup_zero_flow_witness :
    getPortCoordinates exPorts "rotterdam" = (0, 0) ∧
    waypointsHandler exPorts exDist exFp exEnv "rotterdam" "Rotterdam" =
      calculatePassageInfo exDist exFp exEnv ⟨0, 0⟩
        ⟨(getPortCoordinates exPorts "Rotterdam").1,
         (getPortCoordinates exPorts "Rotterdam").2⟩
        ("rotterdam" ++ " -> " ++ "Rotterdam") ∧
    seaRouteByNames exPorts exDist exFp exEnv "Null Island" "Rotterdam" =
      .originNotFound :=
  ⟨port_lookup_zero_flow.1 exPorts "rotterdam" (by decide),
   port_lookup_zero_flow.2.1 exPorts exDist exFp exEnv "rotterdam" "Rotterdam"
     (by decide),
   port_lookup_zero_flow.2.2 exPorts exDist exFp exEnv "Null Island" "Rotterdam"
     (by decide)⟩

/-- Claim C1 is false of the code: with a readable dataset and a search
primitive that fails for the requested pair, `calculatePassageInfo`
returns the path-search error — the whole request aborts; no direct
great-circle fallback connection, distance, or per-pair flag is
produced. -/
theorem findPath_failure_aborts_counterexample :
    calculatePassageInfo exDist exFpFail exEnv ⟨10, 0⟩ ⟨0, 0⟩ "cx1" =
      .error .pathNotFound := rfl

/-- Claim C1 amended: whenever the shortest-path search fails for the
requested pair, the route computation aborts the whole request with an
error (lines 380-382 of main.go) instead of substituting a direct
great-circle fallback. -/
theorem findPath_failure_aborts (dist : DistanceFn) (findPath : FindPathFn)
    (env : Env) (o d : Position) (name : String) (fc : FeatureCollection)
    (hg : buildGraph env = .ok fc)
    (hfp : findPath fc o d (1 / 100000) = .error ()) :
    calculatePassageInfo dist findPath env o d name = .error .pathNotFound := by
  rw [calculatePassageInfo_route dist findPath env o d name fc hg]
  simp only [routeFromGraph, hfp]

/-- Witness for the amended C1 at concrete inputs. -/
theorem findPath_failure_aborts_witness :
    calculatePassageInfo exDist exFpFail exEnv ⟨2, 1⟩ ⟨7, 1⟩ "w1" =
      .error .pathNotFound :=
  findPath_failure_aborts exDist exFpFail exEnv ⟨2, 1⟩ ⟨7, 1⟩ "w1"
    (splitter exRawFc) rfl rfl

/-- Claim C2 is false of the code: for origin `(10,0)` and destination
`(0,0)` the primitive's closest-to-destination-first path
`[(1,0),(9,0)]` (the stated ordering contract holds for it) is
incorporated into the result unreversed, so the first Position of the
result's geometry is the destination-nearest point `(1,0)` — it is not
closer to the origin than the last Position `(9,0)`. -/
theorem path_not_reversed_counterexample :
    primitiveOrdered exDist ⟨10, 0⟩ ⟨0, 0⟩ [⟨1, 0⟩, ⟨9, 0⟩] ∧
    (calculatePassageInfo exDist exFp exEnv ⟨10, 0⟩ ⟨0, 0⟩ "cx2").map
        (fun out => out.features.map (fun f => f.geometry.coordinates)) =
      .ok [[⟨1, 0⟩, ⟨9, 0⟩]] ∧
    ¬ exDist ⟨1, 0⟩ ⟨10, 0⟩ < exDist ⟨9, 0⟩ ⟨10, 0⟩ :=
  ⟨exPath_ordered, rfl, by norm_num [exDist, qabs]⟩

/-- Claim C2 amended: the adapter performs no reversal — the result's
geometry coordinates are exactly the primitive's path, unchanged, so its
first Position is the destination-nearest point; the code compensates
only in the access legs, pairing the origin leg with the path's last
point (`firstWp := path[len(path)-1]`) and the destination leg with the
path's first point (`lastWp := path[0]`). -/
theorem path_not_reversed (dist : DistanceFn) (findPath : FindPathFn)
    (env : Env) (o d : Position) (name : String) (fc : FeatureCollection)
    (path : List Position) (m : ℚ)
    (hg : buildGraph env = .ok fc)
    (hfp : findPath fc o d (1 / 100000) = .ok (path, m))
    (hne : path ≠ []) :
    (calculatePassageInfo dist findPath env o d name).map
        (fun out => out.features.map (fun f =>
          (f.geometry.coordinates, f.properties.oToWpDist,
            f.properties.wpToDDist))) =
      .ok [(path, dist o (path.getLastD default), dist d path.headI)] := by
  rw [calculatePassageInfo_route dist findPath env o d name fc hg]
  cases path with
  | nil => exact absurd rfl hne
  | cons p0 rest =>
    simp only [routeFromGraph, hfp]
    simp [generateOutput, Except.map, List.headI]

/-- Witness for the amended C2 at concrete inputs. -/
theorem path_not_reversed_witness :
    (calculatePassageInfo exDist exFp2 exEnv ⟨10, 0⟩ ⟨0, 0⟩ "w2").map
        (fun out => out.features.map (fun f =>
          (f.geometry.coordinates, f.properties.oToWpDist,
            f.properties.wpToDDist))) =
      .ok [([⟨2, 0⟩, ⟨8, 0⟩],
        exDist ⟨10, 0⟩ (([⟨2, 0⟩, ⟨8, 0⟩] : List Position).getLastD default),
        exDist ⟨0, 0⟩ (([⟨2, 0⟩, ⟨8, 0⟩] : List Position).headI))] :=
  path_not_reversed exDist exFp2 exEnv ⟨10, 0⟩ ⟨0, 0⟩ "w2" (splitter exRawFc)
    [⟨2, 0⟩, ⟨8, 0⟩] 7000 rfl rfl (by decide)

/-- Claim C3 is false of the code: for the dateline-straddling waypoint
pair `[(179.5,10),(-179.5,10)]` the produced geometry is a single
"LineString" feature carrying the whole path in one piece — not a
"MultiLineString" with 2 segments — even though consecutive output points
jump 359 degrees of longitude. -/
theorem no_dateline_split_counterexample :
    (calculatePassageInfo exDist exFpDateline exEnv ⟨179.5, 10⟩ ⟨-179.5, 10⟩
        "cx3").map
        (fun out => out.features.map (fun f =>
          (f.geometry.type, f.geometry.coordinates))) =
      .ok [("LineString", [⟨-179.5, 10⟩, ⟨179.5, 10⟩])] ∧
    "LineString" ≠ "MultiLineString" :=
  ⟨rfl, by decide⟩

/-- Claim C3 amended: the output geometry never splits at antimeridian
crossings — `generateOutput` always emits exactly one feature, of
geometry type "LineString", whose coordinates are the entire path,
whatever longitude jumps it contains; no "MultiLineString" is ever
produced. -/
theorem generateOutput_single_linestring (path : List Position)
    (oCoords dCoords : Position) (td a b c : ℚ) (name : String) :
    (generateOutput path oCoords dCoords td a b c name).features.map
        (fun f => (f.geometry.type, f.geometry.coordinates)) =
      [("LineString", path)] := rfl

/-- Claim C4 is false of the code: `calculatePassageInfo` performs no
coordinate validation — with an origin far outside the documented
[-180,180]×[-90,90] range it proceeds to the path search and returns a
successful result instead of failing with any invalid-coordinate
error. -/
theorem no_coordinate_validation_counterexample :
    ¬ validPosition ⟨200, 95⟩ ∧
    exceptIsOk (calculatePassageInfo exDist exFp exEnv ⟨200, 95⟩ ⟨0, 0⟩ "cx4") =
      true :=
  ⟨by decide, rfl⟩

/-- Claim C4 amended: the route computation has no invalid-coordinate
rejection (no such error kind exists in `PassageError`). Even when an
endpoint is out of range, the computation runs: with a well-formed
dataset and a successful search it succeeds. -/
theorem no_coordinate_validation (dist : DistanceFn) (findPath : FindPathFn)
    (env : Env) (o d : Position) (name : String) (fc : FeatureCollection)
    (path : List Position) (m : ℚ)
    (hinvalid : ¬ validPosition o ∨ ¬ validPosition d)
    (hg : buildGraph env = .ok fc)
    (hfp : findPath fc o d (1 / 100000) = .ok (path, m))
    (hne : path ≠ []) :
    exceptIsOk (calculatePassageInfo dist findPath env o d name) = true := by
  rw [calculatePassageInfo_route dist findPath env o d name fc hg]
  cases path with
  | nil => exact absurd rfl hne
  | cons p0 rest =>
    simp only [routeFromGraph, hfp]
    rfl

/-- Witness for the amended C4 at concrete inputs. -/
theorem no_coordinate_validation_witness :
    exceptIsOk (calculatePassageInfo exDist exFp exEnv ⟨-200, 10⟩ ⟨0, 0⟩ "w4") =
      true :=
  no_coordinate_validation exDist exFp exEnv ⟨-200, 10⟩ ⟨0, 0⟩ "w4"
    (splitter exRawFc) [⟨1, 0⟩, ⟨9, 0⟩] 5000 (Or.inl (by decide)) rfl rfl
    (by decide)

/-- Claim C6 is false of the code: when the pre-split cache file exists
but cannot be read, `calculatePassageInfo` aborts the request with an
error even though the raw dataset is present and readable — it does not
fall back to re-decomposing the raw dataset. -/
theorem unreadable_cache_aborts_counterexample :
    calculatePassageInfo exDist exFp exEnvUnreadableCache ⟨10, 0⟩ ⟨0, 0⟩ "cx6" =
      .error .readSplitError := rfl

/-- Claim C6 amended: a missing cache (stat reports not-exists) silently
falls back to reading and re-decomposing the raw dataset; but an
existing, unreadable cache file is a hard failure that aborts the whole
request. -/
theorem cache_missing_falls_back_unreadable_aborts :
    (∀ (dist : DistanceFn) (findPath : FindPathFn) (env : Env)
        (o d : Position) (name : String) (fc : FeatureCollection),
      env.splitStatNotExist = true → env.marnet = .parsed fc →
      calculatePassageInfo dist findPath env o d name =
        routeFromGraph dist findPath (splitter fc) o d name) ∧
    (∀ (dist : DistanceFn) (findPath : FindPathFn) (env : Env)
        (o d : Position) (name : String),
      env.splitStatNotExist = false → env.split = .unreadable →
      calculatePassageInfo dist findPath env o d name =
        .error .readSplitError) := by
  constructor
  · intro dist findPath env o d name fc hstat hm
    have hg : buildGraph env = .ok (splitter fc) := by
      simp [buildGraph, buildGraphL, hstat, hm]
    exact calculatePassageInfo_route dist findPath env o d name (splitter fc) hg
  · intro dist findPath env o d name hstat hs
    have hb : buildGraphL env = (.error .readSplitError, ⟨1, 0, 0⟩) := by
      simp [buildGraphL, hstat, hs]
    unfold calculatePassageInfo calculatePassageInfoL
    rw [hb]

/-- Witness for the amended C6 at concrete inputs. -/
theorem cache_missing_falls_back_unreadable_aborts_witness :
    calculatePassageInfo exDist exFp exEnv ⟨3, 0⟩ ⟨6, 0⟩ "w6" =
      routeFromGraph exDist exFp (splitter exRawFc) ⟨3, 0⟩ ⟨6, 0⟩ "w6" ∧
    calculatePassageInfo exDist exFp exEnvUnreadableCache ⟨3, 0⟩ ⟨6, 0⟩ "w6" =
      .error .readSplitError :=
  ⟨cache_missing_falls_back_unreadable_aborts.1 exDist exFp exEnv ⟨3, 0⟩ ⟨6, 0⟩
     "w6" exRawFc rfl rfl,
   cache_missing_falls_back_unreadable_aborts.2 exDist exFp
     exEnvUnreadableCache ⟨3, 0⟩ ⟨6, 0⟩ "w6" rfl rfl⟩

/-- Claim C9 is false of the code: two successive successful route
computations in one process parse the dataset twice and decompose it
twice — the dataset work is not bounded by one build. -/
theorem graph_rebuilt_counterexample :
    exceptIsOk (calculatePassageInfo exDist exFp exEnv ⟨10, 0⟩ ⟨0, 0⟩ "cx9") =
      true ∧
    (runCalls exDist exFp exEnv ⟨10, 0⟩ ⟨0, 0⟩ "cx9" 2).parses = 2 ∧
    (runCalls exDist exFp exEnv ⟨10, 0⟩ ⟨0, 0⟩ "cx9" 2).splits = 2 ∧
    ¬ (runCalls exDist exFp exEnv ⟨10, 0⟩ ⟨0, 0⟩ "cx9" 2).parses ≤ 1 :=
  ⟨rfl, rfl, rfl, by decide⟩

/-- Claim C9 amended: the routing graph is rebuilt on every call — over
any number `k` of route computations against a present raw dataset (no
pre-split file), the dataset is read `k` times, parsed `k` times and
decomposed `k` times; no in-memory graph is reused across calls. -/
theorem graph_rebuilt_every_call (dist : DistanceFn) (findPath : FindPathFn)
    (env : Env) (o d : Position) (name : String) (fc : FeatureCollection)
    (hstat : env.splitStatNotExist = true) (hm : env.marnet = .parsed fc)
    (k : Nat) :
    (runCalls dist findPath env o d name k).reads = k ∧
    (runCalls dist findPath env o d name k).parses = k ∧
    (runCalls dist findPath env o d name k).splits = k := by
  have hlog : (calculatePassageInfoL dist findPath env o d name).2 =
      ⟨1, 1, 1⟩ := by
    have hb : buildGraphL env = (.ok (splitter fc), ⟨1, 1, 1⟩) := by
      simp [buildGraphL, hstat, hm]
    simp [calculatePassageInfoL, hb]
  induction k with
  | zero => exact ⟨rfl, rfl, rfl⟩
  | succ n ih =>
    refine ⟨?_, ?_, ?_⟩ <;>
      simp [runCalls, hlog, ih.1, ih.2.1, ih.2.2]

/-- Witness for the amended C9 at concrete inputs: three calls, three
reads, three parses, three decompositions. -/
theorem graph_rebuilt_every_call_witness :
    (runCalls exDist exFp exEnv ⟨1, 1⟩ ⟨2, 2⟩ "w9" 3).reads = 3 ∧
    (runCalls exDist exFp exEnv ⟨1, 1⟩ ⟨2, 2⟩ "w9" 3).parses = 3 ∧
    (runCalls exDist exFp exEnv ⟨1, 1⟩ ⟨2, 2⟩ "w9" 3).splits = 3 :=
  graph_rebuilt_every_call exDist exFp exEnv ⟨1, 1⟩ ⟨2, 2⟩ "w9" exRawFc rfl rfl 3

end Searoute
